import Mathlib

/-!
A shallow embedding of the record-extraction engine of
`src/issuefile.rs` (struct `FileParser` and its methods
`get_issues`, `csv_to_issues`, `json_to_issues`,
`serde_object_to_issue`), together with theorems settling the
specification claims about it.

Modelling conventions:
* File I/O is abstracted away: the CSV path receives the already
  split rows of the file (a list of rows, each a list of field
  strings), and the JSON path receives the parsed JSON value tree.
* Rust panics (`unwrap` on `None`, which the code can reach) are a
  distinct outcome `ParseOutcome.panic`, separate from the typed
  `Err(String)` results.
* The `csv` crate is used by the code with its default settings, in
  which records whose field count differs from the first record's
  produce a read error; this is modelled by the expected-length
  check in `processRow` (error message `Could not read record`, the
  message the code attaches to any record read failure).
* `reader.headers()` returns the first row of the file in both
  header modes; with `has_headers(false)` that first row is also
  yielded again by `records()`. This is reflected in `csvResolve`
  (bounds are checked against the first row's length) and
  `csvDataRows`.
-/

/-- The two-field record produced by the extractor
(`IssueFromFile` in `issuefile.rs`). -/
structure IssueFromFile where
  title : String
  description : Option String
deriving Repr, DecidableEq

/-- The parser configuration (`FileParser` in `issuefile.rs`); the
`file` path itself is abstracted away, only its lowercased extension
is kept, as the code only uses the path to open the file. -/
structure FileParser where
  file_extension : String
  separator : Option Char
  no_header : Bool
  title_key : Option String
  title_column_index : Option Nat
  description_key : Option String
  description_column_index : Option Nat
  prepend_title : Option String
  combine_remaining : Bool
deriving Repr, DecidableEq

/-- Outcome of running a parser method: a Rust panic, a typed
`Err(String)`, or `Ok`. -/
inductive ParseOutcome (α : Type) where
  | panic : ParseOutcome α
  | error : String → ParseOutcome α
  | ok : α → ParseOutcome α
deriving Repr, DecidableEq

/-- A single quote character, used in the name-not-found error
message of `csv_to_issues`. -/
def squote : String := String.singleton (Char.ofNat 39)

/-- The error message `Could not find column with name '<k>'`. -/
def nameNotFoundMsg (k : String) : String :=
  "Could not find column with name " ++ squote ++ k ++ squote

/-- Rust's `str::to_lowercase`, modelled on the character list of the
string (ASCII case mapping, which is all the comparisons here need). -/
def lowercase (s : String) : String := String.mk (s.data.map Char.toLower)

/-- Rust's `str::trim`, removing leading and trailing whitespace. -/
def trimStr (s : String) : String :=
  String.mk (((s.data.dropWhile Char.isWhitespace).reverse.dropWhile
    Char.isWhitespace).reverse)

/-- `headers.iter().position(|x| x.to_lowercase() == key.to_lowercase())`:
case-insensitive first-match lookup of a column name in the header row. -/
def resolveKey (headers : List String) (key : String) : Option Nat :=
  match headers with
  | [] => none
  | h :: t =>
    if lowercase h == lowercase key then some 0
    else (resolveKey t key).map (· + 1)

/-- The description half of the header phase of `csv_to_issues`: when a
description name is configured and combine mode is off, a found header
position overwrites `description_column_index`; if the resulting index is
still absent the name-not-found error is returned.  Also records the
header row into `all_headers` when combine mode is on. -/
def descPhase (p : FileParser) (headers : List String) (tci : Option Nat) :
    Except String (Option Nat × Option Nat × List String) :=
  let all_headers := if p.combine_remaining then headers else []
  match p.description_key with
  | none => .ok (tci, p.description_column_index, all_headers)
  | some k =>
    if p.combine_remaining then .ok (tci, p.description_column_index, all_headers)
    else
      match resolveKey headers k with
      | some i => .ok (tci, some i, all_headers)
      | none =>
        match p.description_column_index with
        | some d => .ok (tci, some d, all_headers)
        | none => .error (nameNotFoundMsg k)

/-- The header phase of `csv_to_issues` (lines 77-141): skipped entirely
when the file has no header; otherwise, when a title name is configured,
a found header position overwrites `title_column_index` (the configured
index is kept only when the name matches nothing), and the name-not-found
error is raised only when the resulting index is still absent. -/
def headerPhase (p : FileParser) (headers : List String) :
    Except String (Option Nat × Option Nat × List String) :=
  if p.no_header then .ok (p.title_column_index, p.description_column_index, [])
  else
    match p.title_key with
    | none => descPhase p headers p.title_column_index
    | some k =>
      match resolveKey headers k with
      | some i => descPhase p headers (some i)
      | none =>
        match p.title_column_index with
        | some t => descPhase p headers (some t)
        | none => .error (nameNotFoundMsg k)

/-- The resolution part of `csv_to_issues`: the delimiter `unwrap`, the
header phase, the `title_column_index.unwrap()` (a panic when it is
still `None`), and the bounds checks of both indices against the length
of `reader.headers()` (the first row of the file). -/
def csvResolve (p : FileParser) (rows : List (List String)) :
    ParseOutcome (Nat × Option Nat × List String) :=
  match p.separator with
  | none => .panic
  | some _ =>
    match headerPhase p (rows.headD []) with
    | .error e => .error e
    | .ok (tci, dci, all_headers) =>
      match tci with
      | none => .panic
      | some t =>
        if t ≥ (rows.headD []).length then
          .error "title_column_index is out of bounds"
        else
          match dci with
          | none => .ok (t, none, all_headers)
          | some d =>
            if d ≥ (rows.headD []).length then
              .error "description_column_index is out of bounds"
            else .ok (t, some d, all_headers)

/-- The rows yielded by `reader.records()`: all rows when the reader was
built with `has_headers(false)`, all but the first row otherwise. -/
def csvDataRows (p : FileParser) (rows : List (List String)) :
    List (List String) :=
  if p.no_header then rows else rows.drop 1

/-- Combine-mode description synthesis for one row: every field except
the one at the title index contributes `<label>: <value>\n\n`, where the
label is the trimmed header name, or `Column <i>` when there is no
header. -/
def combineRow (no_header : Bool) (t : Nat) (all_headers : List String)
    (row : List String) : String :=
  row.enum.foldl
    (fun acc e =>
      if e.1 == t then acc
      else
        let key := if no_header then "Column " ++ toString e.1
                   else all_headers.getD e.1 ""
        acc ++ trimStr key ++ ": " ++ e.2 ++ "\n\n")
    ""

/-- The description policy for one data row of `csv_to_issues`:
combine mode first, otherwise the field at the resolved description
index (`Err` when the row has no field there), otherwise nothing. -/
def rowDescription (p : FileParser) (t : Nat) (dci : Option Nat)
    (all_headers : List String) (row : List String) :
    Except String (Option String) :=
  if p.combine_remaining then
    .ok (some (combineRow p.no_header t all_headers row))
  else
    match dci with
    | some d =>
      match row.get? d with
      | some dv => .ok (some dv)
      | none => .error "Could not get description"
    | none => .ok none

/-- The title prefixing applied when an issue is built:
`format!("{} {}", p, title)` when a prefix is configured. -/
def applyPrepend (pre : Option String) (title : String) : String :=
  match pre with
  | some s => s ++ " " ++ title
  | none => title

/-- Processing of one data row in the streaming loop of
`csv_to_issues`: the strict field-count check of the csv reader, the
mandatory title field, the three description policies, and the title
prefixing. -/
def processRow (p : FileParser) (t : Nat) (dci : Option Nat)
    (all_headers : List String) (expectedLen : Nat) (row : List String) :
    Except String IssueFromFile :=
  if row.length ≠ expectedLen then .error "Could not read record"
  else
    match row.get? t with
    | none => .error "Could not get title"
    | some title =>
      match rowDescription p t dci all_headers row with
      | .error e => .error e
      | .ok desc =>
        .ok { title := applyPrepend p.prepend_title title,
              description := desc }

/-- All-or-nothing traversal: the streaming loop returns the first
error and otherwise the list of results, mirroring the `for` loop of
`csv_to_issues` that returns `Err` as soon as any row fails. -/
def mapExcept {α β ε : Type} (f : α → Except ε β) : List α → Except ε (List β)
  | [] => .ok []
  | x :: xs =>
    match f x with
    | .error e => .error e
    | .ok y =>
      match mapExcept f xs with
      | .error e => .error e
      | .ok ys => .ok (y :: ys)

/-- `FileParser::csv_to_issues`, over the already split rows of the
file. -/
def csv_to_issues (p : FileParser) (rows : List (List String)) :
    ParseOutcome (List IssueFromFile) :=
  match csvResolve p rows with
  | .panic => .panic
  | .error e => .error e
  | .ok (t, dci, all_headers) =>
    match mapExcept (processRow p t dci all_headers (rows.headD []).length)
        (csvDataRows p rows) with
    | .error e => .error e
    | .ok issues => .ok issues

/-- The JSON value tree handed to the JSON path, mirroring the closed
variant set of `serde_json::Value`; a number carries its literal text
form, which is what `n.to_string()` produces. -/
inductive JsonValue where
  | str : String → JsonValue
  | bool : Bool → JsonValue
  | num : String → JsonValue
  | null : JsonValue
  | arr : List JsonValue → JsonValue
  | obj : List (String × JsonValue) → JsonValue

/-- Stringification of one JSON value in `serde_object_to_issue`:
strings, booleans, numbers and null have a text form; nested objects
and arrays are rejected (with the error message the code uses). -/
def stringifyValue : JsonValue → Except String String
  | .str s => .ok s
  | .bool b => .ok (toString b)
  | .num n => .ok n
  | .null => .ok "null"
  | .arr _ => .error "Title is not a string"
  | .obj _ => .error "Title is not a string"

/-- The key/value loop of `serde_object_to_issue`: `tn` is the
lowercased configured title name; a matching key overwrites the title
accumulator; otherwise, in combine mode a `<key>: <value>\n\n` fragment
is appended, and outside combine mode a key matching the configured
description name replaces the whole description accumulator. -/
def objLoop (combine_remaining : Bool) (description_key : Option String)
    (tn : String) :
    List (String × JsonValue) → String → List String →
    Except String (String × List String)
  | [], title, descs => .ok (title, descs)
  | (key, value) :: rest, title, descs =>
    match stringifyValue value with
    | .error e => .error e
    | .ok val =>
      if lowercase key == tn then
        objLoop combine_remaining description_key tn rest val descs
      else if combine_remaining then
        objLoop combine_remaining description_key tn rest title
          (descs ++ [trimStr key ++ ": " ++ val ++ "\n\n"])
      else
        match description_key with
        | some dk =>
          if lowercase key == lowercase dk then
            objLoop combine_remaining description_key tn rest title [val]
          else objLoop combine_remaining description_key tn rest title descs
        | none => objLoop combine_remaining description_key tn rest title descs

/-- `FileParser::serde_object_to_issue`: unwraps `title_key` (a panic
when it is `None`), runs the key/value loop starting from an empty
title and an empty description accumulator, and joins the accumulator
(`None` when it stayed empty). -/
def serde_object_to_issue (p : FileParser)
    (data : List (String × JsonValue)) : ParseOutcome IssueFromFile :=
  match p.title_key with
  | none => .panic
  | some tk =>
    match objLoop p.combine_remaining p.description_key (lowercase tk) data "" [] with
    | .error e => .error e
    | .ok (title, descs) =>
      .ok { title := title,
            description := if descs.isEmpty then none
                           else some (String.join descs) }

/-- The array loop of `json_to_issues`: every element must be an
object, and each object is turned into one issue, in input order. -/
def jsonArrLoop (p : FileParser) :
    List JsonValue → List IssueFromFile → ParseOutcome (List IssueFromFile)
  | [], acc => .ok acc
  | item :: rest, acc =>
    match item with
    | .obj fields =>
      match serde_object_to_issue p fields with
      | .panic => .panic
      | .error e => .error e
      | .ok i => jsonArrLoop p rest (acc ++ [i])
    | _ => .error "Json data is not of a format that can be parsed"

/-- `FileParser::json_to_issues`, over the parsed JSON document: a root
array of objects or a single root object is accepted, anything else is
a format error. -/
def json_to_issues (p : FileParser) (data : JsonValue) :
    ParseOutcome (List IssueFromFile) :=
  match data with
  | .arr items => jsonArrLoop p items []
  | .obj fields =>
    match serde_object_to_issue p fields with
    | .panic => .panic
    | .error e => .error e
    | .ok i => .ok [i]
  | _ => .error "Json data is not of a format that can be parsed"

/-- `FileParser::get_issues`: extension dispatch.  A real file admits
both readings, so the model receives both the delimited-text rows and
the parsed JSON value the file would yield, and dispatches on the
stored lowercased extension exactly as the code does. -/
def get_issues (p : FileParser) (rows : List (List String))
    (jdata : JsonValue) : ParseOutcome (List IssueFromFile) :=
  match p.file_extension with
  | "csv" => csv_to_issues p rows
  | "json" => json_to_issues p jdata
  | _ => .error "Unsupported file type"

/-! ### Helper lemmas about the streaming machinery -/

/-- Every issue in a successful stream comes from some input row. -/
theorem mapExcept_ok_mem {α β ε : Type} (f : α → Except ε β) :
    ∀ (xs : List α) (ys : List β), mapExcept f xs = Except.ok ys →
      ∀ y ∈ ys, ∃ x ∈ xs, f x = Except.ok y := by
  intro xs
  induction xs with
  | nil =>
    intro ys h y hy
    simp only [mapExcept] at h
    cases h
    simp at hy
  | cons a as ih =>
    intro ys h y hy
    simp only [mapExcept] at h
    cases ha : f a with
    | error e => rw [ha] at h; simp at h
    | ok b =>
      rw [ha] at h
      cases hrest : mapExcept f as with
      | error e => rw [hrest] at h; simp at h
      | ok bs =>
        rw [hrest] at h
        cases h
        rcases List.mem_cons.mp hy with hyb | hybs
        · exact ⟨a, List.mem_cons_self a as, by rw [ha, hyb]⟩
        · rcases ih bs hrest y hybs with ⟨x, hx, hfx⟩
          exact ⟨x, List.mem_cons_of_mem a hx, hfx⟩

/-- If any input element fails, the whole stream fails. -/
theorem mapExcept_error_exists {α β ε : Type} (f : α → Except ε β) :
    ∀ (xs : List α), (∃ x ∈ xs, ∃ e0, f x = Except.error e0) →
      ∃ e, mapExcept f xs = Except.error e := by
  intro xs
  induction xs with
  | nil => rintro ⟨x, hx, _⟩; simp at hx
  | cons a as ih =>
    rintro ⟨x, hx, e0, hfx⟩
    simp only [mapExcept]
    cases ha : f a with
    | error e => exact ⟨e, rfl⟩
    | ok b =>
      rcases List.mem_cons.mp hx with hxa | hxs
      · rw [hxa, ha] at hfx; simp at hfx
      · rcases ih ⟨x, hxs, e0, hfx⟩ with ⟨e, he⟩
        rw [he]
        exact ⟨e, rfl⟩

/-- A successful resolution leaves both indices within the width of the
first row of the file. -/
theorem csvResolve_ok_bounds (p : FileParser) (rows : List (List String))
    (t : Nat) (dci : Option Nat) (ah : List String)
    (h : csvResolve p rows = ParseOutcome.ok (t, dci, ah)) :
    t < (rows.headD []).length ∧
      ∀ d, dci = some d → d < (rows.headD []).length := by
  unfold csvResolve at h
  split at h
  · simp at h
  · split at h
    · simp at h
    · split at h
      · simp at h
      · split at h
        · simp at h
        · split at h
          · next hnot _ =>
            simp only [ParseOutcome.ok.injEq, Prod.mk.injEq] at h
            obtain ⟨ht, hd, _⟩ := h
            subst ht
            constructor
            · omega
            · intro d hdd; rw [← hd] at hdd; cases hdd
          · split at h
            · simp at h
            · next hnot _ hnotd =>
              simp only [ParseOutcome.ok.injEq, Prod.mk.injEq] at h
              obtain ⟨ht, hd, _⟩ := h
              subst ht
              constructor
              · omega
              · intro d hdd
                rw [← hd] at hdd
                cases hdd
                omega

/-- A successful extraction means the streaming loop succeeded on the
data rows with the resolved positions. -/
theorem csv_to_issues_eq_stream (p : FileParser) (rows : List (List String))
    (t : Nat) (dci : Option Nat) (ah : List String)
    (hres : csvResolve p rows = ParseOutcome.ok (t, dci, ah))
    (issues : List IssueFromFile)
    (h : csv_to_issues p rows = ParseOutcome.ok issues) :
    mapExcept (processRow p t dci ah (rows.headD []).length)
      (csvDataRows p rows) = Except.ok issues := by
  have key : csv_to_issues p rows =
      (match mapExcept (processRow p t dci ah (rows.headD []).length)
          (csvDataRows p rows) with
        | Except.error e => ParseOutcome.error e
        | Except.ok issues => ParseOutcome.ok issues) := by
    unfold csv_to_issues
    rw [hres]
  rw [key] at h
  cases hm : mapExcept (processRow p t dci ah (rows.headD []).length)
      (csvDataRows p rows) with
  | error e => rw [hm] at h; simp at h
  | ok ys =>
    rw [hm] at h
    simp only [ParseOutcome.ok.injEq] at h
    rw [h]

/-- A failure of the streaming loop is the result of the whole
extraction. -/
theorem csv_to_issues_error_of_stream (p : FileParser)
    (rows : List (List String)) (t : Nat) (dci : Option Nat)
    (ah : List String) (e : String)
    (hres : csvResolve p rows = ParseOutcome.ok (t, dci, ah))
    (hm : mapExcept (processRow p t dci ah (rows.headD []).length)
      (csvDataRows p rows) = Except.error e) :
    csv_to_issues p rows = ParseOutcome.error e := by
  have key : csv_to_issues p rows =
      (match mapExcept (processRow p t dci ah (rows.headD []).length)
          (csvDataRows p rows) with
        | Except.error e => ParseOutcome.error e
        | Except.ok issues => ParseOutcome.ok issues) := by
    unfold csv_to_issues
    rw [hres]
  rw [key, hm]


/-- Anatomy of a successfully processed row: the row has the expected
width, the title field exists and is prefixed verbatim, and the
description is whatever the description policy produced. -/
theorem processRow_ok_shape (p : FileParser) (t : Nat) (dci : Option Nat)
    (ah : List String) (len : Nat) (row : List String) (issue : IssueFromFile)
    (h : processRow p t dci ah len row = Except.ok issue) :
    row.length = len ∧
    ∃ raw, row.get? t = some raw ∧
      issue.title = applyPrepend p.prepend_title raw ∧
      ∃ desc, rowDescription p t dci ah row = Except.ok desc ∧
        issue.description = desc := by
  unfold processRow at h
  split at h
  · simp at h
  · next hlen =>
    refine ⟨by omega, ?_⟩
    cases hg : row.get? t with
    | none => rw [hg] at h; simp at h
    | some raw =>
      rw [hg] at h
      refine ⟨raw, rfl, ?_⟩
      cases hd : rowDescription p t dci ah row with
      | error e => rw [hd] at h; simp at h
      | ok desc =>
        rw [hd] at h
        have h2 : Except.ok (IssueFromFile.mk
            (applyPrepend p.prepend_title raw) desc) = Except.ok issue := h
        injection h2 with h3
        rw [← h3]
        exact ⟨rfl, desc, rfl, rfl⟩

/-- As soon as a description index is resolved or combine mode is on,
a successfully processed description is present (`Some`). -/
theorem rowDescription_ok_isSome (p : FileParser) (t : Nat) (dci : Option Nat)
    (ah : List String) (row : List String) (desc : Option String)
    (h : rowDescription p t dci ah row = Except.ok desc)
    (hne : dci.isSome = true ∨ p.combine_remaining = true) :
    desc.isSome = true := by
  unfold rowDescription at h
  split at h
  · have h2 : Except.ok (some (combineRow p.no_header t ah row)) =
        Except.ok desc := h
    injection h2 with h3
    rw [← h3]
    rfl
  · next hcfalse =>
    cases dci with
    | none =>
      rcases hne with hd | hcomb
      · simp at hd
      · exact absurd hcomb hcfalse
    | some d =>
      have h2 : (match row.get? d with
          | some dv => Except.ok (some dv)
          | none =>
            (Except.error "Could not get description" :
              Except String (Option String))) = Except.ok desc := h
      cases hgd : row.get? d with
      | none => rw [hgd] at h2; simp at h2
      | some dv =>
        rw [hgd] at h2
        injection h2 with h3
        rw [← h3]
        rfl

/-- When no description name is configured, the description half of the
header phase passes the configured description index through
untouched. -/
theorem descPhase_no_desc_key (p : FileParser) (headers : List String)
    (tci : Option Nat) (h4 : p.description_key = none) :
    descPhase p headers tci =
      Except.ok (tci, p.description_column_index,
        if p.combine_remaining then headers else []) := by
  unfold descPhase
  rw [h4]

/-! ### Claim C1 -/

/-- Configuration supplying both a title name and an explicit title
index, with a header. -/
def cfgC1 : FileParser :=
  { file_extension := "csv", separator := some ',', no_header := false,
    title_key := some "title", title_column_index := some 2,
    description_key := none, description_column_index := none,
    prepend_title := none, combine_remaining := false }

/-- Claim C1, counterexample: with both a title name (`"title"`) and an
explicit title index (2) configured and a header present, the code runs
the name lookup anyway and the found position 0 replaces the configured
index, so the extracted title is the field at index 0 (`"T"`) and not
the field at index 2 (`"B"`) that the claim requires. -/
theorem C1_counterexample :
    csv_to_issues cfgC1 [["title", "a", "b"], ["T", "A", "B"]] =
      ParseOutcome.ok [IssueFromFile.mk "T" none] ∧
    csv_to_issues cfgC1 [["title", "a", "b"], ["T", "A", "B"]] ≠
      ParseOutcome.ok [IssueFromFile.mk "B" none] :=
  ⟨rfl, by decide⟩

/-- Claim C1, amended: when both a title name and an explicit title
index are supplied with a header, the name lookup still runs; a found
header position replaces the supplied index, the supplied index is kept
only when the name matches nothing, and in either case the
name-not-found error is never raised. -/
theorem C1_amended (p : FileParser) (headers : List String) (k : String)
    (i : Nat) (h1 : p.no_header = false) (h2 : p.title_key = some k)
    (h3 : p.title_column_index = some i) (h4 : p.description_key = none) :
    headerPhase p headers =
      Except.ok (some ((resolveKey headers k).getD i),
        p.description_column_index,
        if p.combine_remaining then headers else []) := by
  have hdp : ∀ tci, descPhase p headers tci =
      Except.ok (tci, p.description_column_index,
        if p.combine_remaining then headers else []) :=
    fun tci => descPhase_no_desc_key p headers tci h4
  unfold headerPhase
  rw [h1, h2]
  show (match resolveKey headers k with
        | some i2 => descPhase p headers (some i2)
        | none =>
          match p.title_column_index with
          | some t => descPhase p headers (some t)
          | none => Except.error (nameNotFoundMsg k)) =
      Except.ok (some ((resolveKey headers k).getD i),
        p.description_column_index,
        if p.combine_remaining then headers else [])
  cases hr : resolveKey headers k with
  | some j =>
    show descPhase p headers (some j) = _
    rw [hdp (some j)]
    rfl
  | none =>
    rw [h3]
    show descPhase p headers (some i) = _
    rw [hdp (some i)]
    rfl

/-- Configuration for the C1 witness: index 5 supplied together with
the name. -/
def cfgC1W : FileParser :=
  { file_extension := "csv", separator := some ',', no_header := false,
    title_key := some "title", title_column_index := some 5,
    description_key := none, description_column_index := none,
    prepend_title := none, combine_remaining := false }

/-- Witness for the amended claim C1: with index 5 supplied and the
name `"title"` found at position 1, resolution yields 1 (the name's
position), not 5. -/
theorem C1_amended_witness :
    headerPhase cfgC1W ["a", "title"] = Except.ok (some 1, none, []) :=
  C1_amended cfgC1W ["a", "title"] "title" 5 rfl rfl rfl rfl

/-! ### Claim C5 -/

/-- Configuration with no header and a name-based title selector. -/
def cfgC5 : FileParser :=
  { file_extension := "csv", separator := some ',', no_header := true,
    title_key := some "title", title_column_index := none,
    description_key := none, description_column_index := none,
    prepend_title := none, combine_remaining := false }

/-- Claim C5: with `no_header` set and a name-based title selector, the
header phase is skipped entirely and `title_column_index.unwrap()` is
reached while the index is still `None`, so `csv_to_issues` panics (for
any file content) instead of rejecting the configuration with a typed
error; the comment above the bounds check, which claims the index must
be `Some` at that point, is wrong for this configuration. -/
theorem C5_no_header_name_selector_panics (rows : List (List String)) :
    csv_to_issues cfgC5 rows = ParseOutcome.panic := rfl

/-! ### Claim C6 -/

/-- Combine-mode configuration selecting the title by name. -/
def cfgC6 : FileParser :=
  { file_extension := "csv", separator := some ',', no_header := false,
    title_key := some "title", title_column_index := none,
    description_key := none, description_column_index := none,
    prepend_title := none, combine_remaining := true }

/-- Claim C6: end-to-end combine mode on the delimited-text path with
header `id,title,owner` and one data row yields exactly one record with
title `"Crash"` and the synthesized description, each non-title field
contributing a fragment in column order with the trailing blank-line
separator included. -/
theorem C6_combine_end_to_end :
    csv_to_issues cfgC6 [["id", "title", "owner"], ["7", "Crash", "alice"]] =
      ParseOutcome.ok
        [IssueFromFile.mk "Crash" (some "id: 7\n\nowner: alice\n\n")] := rfl

/-! ### Claim C7 -/

/-- First-match anatomy of `resolveKey`: a found position is in range,
matches case-insensitively, and every earlier header entry does not
match. -/
theorem resolveKey_first_match (key : String) :
    ∀ (headers : List String) (i : Nat), resolveKey headers key = some i →
      i < headers.length ∧
      lowercase (headers.getD i "") = lowercase key ∧
      ∀ j, j < i → lowercase (headers.getD j "") ≠ lowercase key := by
  intro headers
  induction headers with
  | nil => intro i h; simp [resolveKey] at h
  | cons a t ih =>
    intro i h
    unfold resolveKey at h
    split at h
    · next heq =>
      injection h with h0
      subst h0
      refine ⟨by simp, ?_, ?_⟩
      · simpa using eq_of_beq heq
      · intro j hj
        exact absurd hj (Nat.not_lt_zero j)
    · next hne =>
      cases hr : resolveKey t key with
      | none => rw [hr] at h; simp at h
      | some i2 =>
        rw [hr] at h
        have h2 : some (i2 + 1) = some i := h
        injection h2 with h0
        subst h0
        obtain ⟨hlt, hmatch, hfirst⟩ := ih i2 hr
        refine ⟨by simp only [List.length_cons]; omega,
          by simpa using hmatch, ?_⟩
        intro j hj
        cases j with
        | zero =>
          simp only [List.getD_cons_zero]
          intro hcon
          exact hne (by simp [hcon])
        | succ j2 =>
          simpa using hfirst j2 (by omega)

/-- Claim C7: name resolution is a case-insensitive exact first-match
scan in header order; `["Title","Description"]` resolves `"title"` to
index 0; a duplicated header `["Title","Title"]` resolves to the first
occurrence, index 0, without error; and when no header entry matches
and no explicit index was configured, extraction fails with the error
naming the requested column. -/
theorem C7_name_resolution :
    (∀ (headers : List String) (key : String) (i : Nat),
        resolveKey headers key = some i →
        i < headers.length ∧
        lowercase (headers.getD i "") = lowercase key ∧
        ∀ j, j < i → lowercase (headers.getD j "") ≠ lowercase key) ∧
    resolveKey ["Title", "Description"] "title" = some 0 ∧
    resolveKey ["Title", "Title"] "title" = some 0 ∧
    (∀ (p : FileParser) (rows : List (List String)) (key : String) (c : Char),
        p.separator = some c → p.no_header = false →
        p.title_key = some key → p.title_column_index = none →
        resolveKey (rows.headD []) key = none →
        csv_to_issues p rows = ParseOutcome.error (nameNotFoundMsg key)) := by
  refine ⟨fun headers key i h => resolveKey_first_match key headers i h,
    rfl, rfl, ?_⟩
  intro p rows key c h1 h2 h3 h4 h5
  have hhp : headerPhase p (rows.headD []) =
      Except.error (nameNotFoundMsg key) := by
    unfold headerPhase
    rw [h2, h3]
    show (match resolveKey (rows.headD []) key with
          | some i2 => descPhase p (rows.headD []) (some i2)
          | none =>
            match p.title_column_index with
            | some t => descPhase p (rows.headD []) (some t)
            | none => Except.error (nameNotFoundMsg key)) =
        Except.error (nameNotFoundMsg key)
    rw [h5, h4]
  have hres : csvResolve p rows = ParseOutcome.error (nameNotFoundMsg key) := by
    unfold csvResolve
    rw [h1, hhp]
  unfold csv_to_issues
  rw [hres]

/-- Configuration for the C7 witness: name `"nope"` not present in the
header, no index configured. -/
def cfgC7W : FileParser :=
  { file_extension := "csv", separator := some ',', no_header := false,
    title_key := some "nope", title_column_index := none,
    description_key := none, description_column_index := none,
    prepend_title := none, combine_remaining := false }

/-- Witness for claim C7: the duplicate-header resolution and the
name-not-found failure at concrete inputs. -/
theorem C7_name_resolution_witness :
    resolveKey ["Title", "Title"] "title" = some 0 ∧
    csv_to_issues cfgC7W [["title", "a"], ["T", "A"]] =
      ParseOutcome.error (nameNotFoundMsg "nope") :=
  ⟨C7_name_resolution.2.2.1,
   C7_name_resolution.2.2.2 cfgC7W [["title", "a"], ["T", "A"]] "nope" ','
     rfl rfl rfl rfl rfl⟩

/-! ### Claim C8 -/

/-- Claim C8: after resolution, the title index and, when set, the
description index are validated against the header width before any
data row is streamed; an out-of-bounds index fails the whole extraction
with the corresponding out-of-bounds error and zero records.  The data
rows are universally quantified because they are never read: the result
is the same for every possible remainder of the file. -/
theorem C8_bounds_before_rows (p : FileParser) (c : Char)
    (headers : List String) (rows : List (List String)) (t : Nat)
    (dci : Option Nat) (ah : List String)
    (h1 : p.separator = some c) (h2 : p.no_header = false)
    (h3 : headerPhase p headers = Except.ok (some t, dci, ah)) :
    (t ≥ headers.length →
      csv_to_issues p (headers :: rows) =
        ParseOutcome.error "title_column_index is out of bounds") ∧
    (t < headers.length → ∀ d, dci = some d → d ≥ headers.length →
      csv_to_issues p (headers :: rows) =
        ParseOutcome.error "description_column_index is out of bounds") := by
  have hhd : (headers :: rows).headD [] = headers := rfl
  constructor
  · intro hge
    have hres : csvResolve p (headers :: rows) =
        ParseOutcome.error "title_column_index is out of bounds" := by
      unfold csvResolve
      rw [h1, hhd, h3]
      show (if t ≥ headers.length then
              ParseOutcome.error "title_column_index is out of bounds"
            else
              match dci with
              | none => ParseOutcome.ok (t, none, ah)
              | some d =>
                if d ≥ headers.length then
                  ParseOutcome.error "description_column_index is out of bounds"
                else ParseOutcome.ok (t, some d, ah)) = _
      rw [if_pos hge]
    unfold csv_to_issues
    rw [hres]
  · intro hlt d hdd hge
    subst hdd
    have hres : csvResolve p (headers :: rows) =
        ParseOutcome.error "description_column_index is out of bounds" := by
      unfold csvResolve
      rw [h1, hhd, h3]
      show (if t ≥ headers.length then
              ParseOutcome.error "title_column_index is out of bounds"
            else
              if d ≥ headers.length then
                ParseOutcome.error "description_column_index is out of bounds"
              else ParseOutcome.ok (t, some d, ah)) = _
      rw [if_neg (by omega), if_pos hge]
    unfold csv_to_issues
    rw [hres]

/-- Configuration for the C8 witness: explicit title index 5 against a
two-column header. -/
def cfgC8W : FileParser :=
  { file_extension := "csv", separator := some ',', no_header := false,
    title_key := none, title_column_index := some 5,
    description_key := none, description_column_index := none,
    prepend_title := none, combine_remaining := false }

/-- Witness for claim C8: title index 5 against header width 2 fails
with the out-of-bounds error. -/
theorem C8_bounds_before_rows_witness :
    csv_to_issues cfgC8W [["a", "b"], ["x"]] =
      ParseOutcome.error "title_column_index is out of bounds" :=
  (C8_bounds_before_rows cfgC8W ',' ["a", "b"] [["x"]] 5 none [] rfl rfl
    rfl).1 (by decide)

/-! ### Claim C9 -/

/-- Claim C9: extraction is all-or-nothing.  Once resolution has
succeeded, a data row with no field at the title index (shorter than
`titleIndex + 1`, which the strict csv reader reports as a record read
failure) aborts the whole extraction with an error, which carries zero
records — no partial list of previously extracted records is
returned. -/
theorem C9_short_row_aborts (p : FileParser) (rows : List (List String))
    (t : Nat) (dci : Option Nat) (ah : List String)
    (hres : csvResolve p rows = ParseOutcome.ok (t, dci, ah))
    (hbad : ∃ row ∈ csvDataRows p rows, row.length < t + 1) :
    ∃ e, csv_to_issues p rows = ParseOutcome.error e := by
  obtain ⟨row, hmem, hlen⟩ := hbad
  have hb := (csvResolve_ok_bounds p rows t dci ah hres).1
  have hneq : row.length ≠ (rows.headD []).length := by omega
  have herr : processRow p t dci ah (rows.headD []).length row =
      Except.error "Could not read record" := by
    unfold processRow
    rw [if_pos hneq]
  obtain ⟨e, he⟩ := mapExcept_error_exists
    (processRow p t dci ah (rows.headD []).length) (csvDataRows p rows)
    ⟨row, hmem, "Could not read record", herr⟩
  exact ⟨e, csv_to_issues_error_of_stream p rows t dci ah e hres he⟩

/-- Configuration for the C9 witness: explicit title index 0. -/
def cfgC9W : FileParser :=
  { file_extension := "csv", separator := some ',', no_header := false,
    title_key := none, title_column_index := some 0,
    description_key := none, description_column_index := none,
    prepend_title := none, combine_remaining := false }

/-- Witness for claim C9: an empty data row, which has no field at
title index 0, makes the whole extraction fail. -/
theorem C9_short_row_aborts_witness :
    ∃ e, csv_to_issues cfgC9W [["a", "b"], []] = ParseOutcome.error e :=
  C9_short_row_aborts cfgC9W [["a", "b"], []] 0 none [] rfl
    ⟨[], by decide, by decide⟩

/-! ### Helper lemmas about the JSON path -/

/-- Once a title key is configured, `serde_object_to_issue` cannot
panic. -/
theorem serde_no_panic (p : FileParser) (tk : String)
    (htk : p.title_key = some tk) (fields : List (String × JsonValue)) :
    serde_object_to_issue p fields ≠ ParseOutcome.panic := by
  unfold serde_object_to_issue
  rw [htk]
  show (match objLoop p.combine_remaining p.description_key (lowercase tk)
          fields "" [] with
        | Except.error e => ParseOutcome.error e
        | Except.ok (title, descs) =>
          ParseOutcome.ok (IssueFromFile.mk title
            (if descs.isEmpty then none
             else some (String.join descs)))) ≠
      ParseOutcome.panic
  cases objLoop p.combine_remaining p.description_key (lowercase tk)
      fields "" [] with
  | error e => simp
  | ok r =>
    obtain ⟨title, descs⟩ := r
    simp

/-- Once a title key is configured, the array loop of `json_to_issues`
cannot panic. -/
theorem jsonArrLoop_no_panic (p : FileParser) (tk : String)
    (htk : p.title_key = some tk) :
    ∀ (items : List JsonValue) (acc : List IssueFromFile),
      jsonArrLoop p items acc ≠ ParseOutcome.panic := by
  intro items
  induction items with
  | nil =>
    intro acc
    show ParseOutcome.ok acc ≠ ParseOutcome.panic
    simp
  | cons item rest ih =>
    intro acc
    cases item with
    | obj fields =>
      show (match serde_object_to_issue p fields with
            | ParseOutcome.panic => ParseOutcome.panic
            | ParseOutcome.error e => ParseOutcome.error e
            | ParseOutcome.ok i => jsonArrLoop p rest (acc ++ [i])) ≠
          ParseOutcome.panic
      cases hs : serde_object_to_issue p fields with
      | panic => exact absurd hs (serde_no_panic p tk htk fields)
      | error e => simp
      | ok i => exact ih (acc ++ [i])
    | str s =>
      show (ParseOutcome.error "Json data is not of a format that can be parsed" :
          ParseOutcome (List IssueFromFile)) ≠ ParseOutcome.panic
      simp
    | bool b =>
      show (ParseOutcome.error "Json data is not of a format that can be parsed" :
          ParseOutcome (List IssueFromFile)) ≠ ParseOutcome.panic
      simp
    | num n =>
      show (ParseOutcome.error "Json data is not of a format that can be parsed" :
          ParseOutcome (List IssueFromFile)) ≠ ParseOutcome.panic
      simp
    | null =>
      show (ParseOutcome.error "Json data is not of a format that can be parsed" :
          ParseOutcome (List IssueFromFile)) ≠ ParseOutcome.panic
      simp
    | arr xs =>
      show (ParseOutcome.error "Json data is not of a format that can be parsed" :
          ParseOutcome (List IssueFromFile)) ≠ ParseOutcome.panic
      simp

/-- Once a title key is configured, `json_to_issues` cannot panic, for
any JSON document. -/
theorem json_to_issues_no_panic (p : FileParser) (tk : String)
    (htk : p.title_key = some tk) (data : JsonValue) :
    json_to_issues p data ≠ ParseOutcome.panic := by
  cases data with
  | arr items => exact jsonArrLoop_no_panic p tk htk items []
  | obj fields =>
    show (match serde_object_to_issue p fields with
          | ParseOutcome.panic => ParseOutcome.panic
          | ParseOutcome.error e => ParseOutcome.error e
          | ParseOutcome.ok i => ParseOutcome.ok [i]) ≠ ParseOutcome.panic
    cases hs : serde_object_to_issue p fields with
    | panic => exact absurd hs (serde_no_panic p tk htk fields)
    | error e => simp
    | ok i => simp
  | str s =>
    show (ParseOutcome.error "Json data is not of a format that can be parsed" :
        ParseOutcome (List IssueFromFile)) ≠ ParseOutcome.panic
    simp
  | bool b =>
    show (ParseOutcome.error "Json data is not of a format that can be parsed" :
        ParseOutcome (List IssueFromFile)) ≠ ParseOutcome.panic
    simp
  | num n =>
    show (ParseOutcome.error "Json data is not of a format that can be parsed" :
        ParseOutcome (List IssueFromFile)) ≠ ParseOutcome.panic
    simp
  | null =>
    show (ParseOutcome.error "Json data is not of a format that can be parsed" :
        ParseOutcome (List IssueFromFile)) ≠ ParseOutcome.panic
    simp

/-- The JSON object path never reads `prepend_title`. -/
theorem serde_prepend (p : FileParser) (x : Option String)
    (fields : List (String × JsonValue)) :
    serde_object_to_issue { p with prepend_title := x } fields =
      serde_object_to_issue p fields := rfl

/-- The JSON array loop never reads `prepend_title`. -/
theorem jsonArrLoop_prepend (p : FileParser) (x : Option String) :
    ∀ (items : List JsonValue) (acc : List IssueFromFile),
      jsonArrLoop { p with prepend_title := x } items acc =
        jsonArrLoop p items acc := by
  intro items
  induction items with
  | nil => intro acc; rfl
  | cons item rest ih =>
    intro acc
    cases item with
    | obj fields =>
      show (match serde_object_to_issue { p with prepend_title := x } fields with
            | ParseOutcome.panic => ParseOutcome.panic
            | ParseOutcome.error e => ParseOutcome.error e
            | ParseOutcome.ok i =>
              jsonArrLoop { p with prepend_title := x } rest (acc ++ [i])) =
          (match serde_object_to_issue p fields with
            | ParseOutcome.panic => ParseOutcome.panic
            | ParseOutcome.error e => ParseOutcome.error e
            | ParseOutcome.ok i => jsonArrLoop p rest (acc ++ [i]))
      rw [serde_prepend p x fields]
      cases serde_object_to_issue p fields with
      | panic => rfl
      | error e => rfl
      | ok i => exact ih (acc ++ [i])
    | str s => rfl
    | bool b => rfl
    | num n => rfl
    | null => rfl
    | arr xs => rfl

/-- `json_to_issues` never reads `prepend_title`: the JSON path is
completely independent of the configured title prefix. -/
theorem json_to_issues_prepend (p : FileParser) (x : Option String)
    (data : JsonValue) :
    json_to_issues { p with prepend_title := x } data =
      json_to_issues p data := by
  cases data with
  | arr items => exact jsonArrLoop_prepend p x items []
  | obj fields =>
    show (match serde_object_to_issue { p with prepend_title := x } fields with
          | ParseOutcome.panic => ParseOutcome.panic
          | ParseOutcome.error e => ParseOutcome.error e
          | ParseOutcome.ok i => ParseOutcome.ok [i]) =
        (match serde_object_to_issue p fields with
          | ParseOutcome.panic => ParseOutcome.panic
          | ParseOutcome.error e => ParseOutcome.error e
          | ParseOutcome.ok i => ParseOutcome.ok [i])
    rw [serde_prepend p x fields]
  | str s => rfl
  | bool b => rfl
  | num n => rfl
  | null => rfl

/-- In combine mode, the description accumulator of the object loop
ends empty exactly when it started empty and every entry's key matches
the (lowercased) title key. -/
theorem objLoop_combine_descs (dk : Option String) (tn : String) :
    ∀ (entries : List (String × JsonValue)) (title : String)
      (descs : List String) (tOut : String) (dOut : List String),
      objLoop true dk tn entries title descs = Except.ok (tOut, dOut) →
      (dOut = [] ↔ (descs = [] ∧ ∀ kv ∈ entries, lowercase kv.1 = tn)) := by
  intro entries
  induction entries with
  | nil =>
    intro title descs tOut dOut h
    have h2 : Except.ok (title, descs) =
        (Except.ok (tOut, dOut) : Except String (String × List String)) := h
    injection h2 with h3
    injection h3 with h4 h5
    subst h5
    simp
  | cons e rest ih =>
    obtain ⟨key, v⟩ := e
    intro title descs tOut dOut h
    simp only [objLoop] at h
    cases hv : stringifyValue v with
    | error err =>
      rw [hv] at h
      have h2 : (Except.error err : Except String (String × List String)) =
          Except.ok (tOut, dOut) := h
      simp at h2
    | ok val =>
      rw [hv] at h
      have h2 : (if lowercase key == tn then
            objLoop true dk tn rest val descs
          else objLoop true dk tn rest title
            (descs ++ [trimStr key ++ ": " ++ val ++ "\n\n"])) =
          Except.ok (tOut, dOut) := h
      by_cases hk : lowercase key = tn
      · rw [if_pos (by simp [hk])] at h2
        rw [ih val descs tOut dOut h2]
        simp [hk]
      · rw [if_neg (by simp [hk])] at h2
        have hih := ih title
          (descs ++ [trimStr key ++ ": " ++ val ++ "\n\n"]) tOut dOut h2
        constructor
        · intro h3
          rcases hih.mp h3 with ⟨habs, _⟩
          exact absurd habs (by simp)
        · intro h3
          exact absurd (h3.2 (key, v) (List.mem_cons_self _ _)) hk

/-! ### Claim C2 -/

/-- JSON configuration with a title prefix. -/
def cfgC2 : FileParser :=
  { file_extension := "json", separator := none, no_header := false,
    title_key := some "title", title_column_index := none,
    description_key := none, description_column_index := none,
    prepend_title := some "TODO:", combine_remaining := false }

/-- Claim C2, counterexample: on the JSON path the configured title
prefix is never applied — with prefix `"TODO:"` the object
`{"title": "Fix bug"}` yields the title `"Fix bug"`, not
`"TODO: Fix bug"` as the claim requires for every source path. -/
theorem C2_counterexample :
    json_to_issues cfgC2 (JsonValue.obj [("title", JsonValue.str "Fix bug")]) =
      ParseOutcome.ok [IssueFromFile.mk "Fix bug" none] ∧
    json_to_issues cfgC2 (JsonValue.obj [("title", JsonValue.str "Fix bug")]) ≠
      ParseOutcome.ok [IssueFromFile.mk "TODO: Fix bug" none] :=
  ⟨rfl, by decide⟩

/-- Claim C2, amended: with a configured title prefix, every record
emitted by the delimited-text path has title `prefix ++ " " ++ raw`
(single separating space, `raw` being the row's field at the title
index); the JSON path, however, ignores `prepend_title` entirely, so
its titles carry no prefix. -/
theorem C2_prefix_text_only :
    (∀ (p : FileParser) (rows : List (List String)) (t : Nat)
        (dci : Option Nat) (ah : List String) (pre : String)
        (issues : List IssueFromFile),
        p.prepend_title = some pre →
        csvResolve p rows = ParseOutcome.ok (t, dci, ah) →
        csv_to_issues p rows = ParseOutcome.ok issues →
        ∀ issue ∈ issues, ∃ row ∈ csvDataRows p rows, ∃ raw,
          row.get? t = some raw ∧ issue.title = pre ++ " " ++ raw) ∧
    (∀ (p : FileParser) (x : Option String) (data : JsonValue),
        json_to_issues { p with prepend_title := x } data =
          json_to_issues p data) := by
  constructor
  · intro p rows t dci ah pre issues hpre hres hok issue hmem
    have hstream := csv_to_issues_eq_stream p rows t dci ah hres issues hok
    obtain ⟨row, hrow, hpr⟩ :=
      mapExcept_ok_mem _ (csvDataRows p rows) issues hstream issue hmem
    obtain ⟨_, raw, hraw, htitle, _⟩ :=
      processRow_ok_shape p t dci ah _ row issue hpr
    refine ⟨row, hrow, raw, hraw, ?_⟩
    rw [htitle, hpre]
    rfl
  · intro p x data
    exact json_to_issues_prepend p x data

/-- Text-path configuration for the C2 witness. -/
def cfgC2W : FileParser :=
  { file_extension := "csv", separator := some ',', no_header := false,
    title_key := some "title", title_column_index := none,
    description_key := some "description", description_column_index := none,
    prepend_title := some "TODO:", combine_remaining := false }

/-- Witness for the amended claim C2: prefixing on the text path and
prefix-independence on the JSON path at concrete inputs. -/
theorem C2_prefix_text_only_witness :
    (∀ issue ∈ ([IssueFromFile.mk "TODO: Fix bug" (some "NPE on login")] :
        List IssueFromFile),
      ∃ row ∈ csvDataRows cfgC2W
          [["title", "description"], ["Fix bug", "NPE on login"]], ∃ raw,
        row.get? 0 = some raw ∧ issue.title = "TODO:" ++ " " ++ raw) ∧
    json_to_issues { cfgC2 with prepend_title := some "X" }
        (JsonValue.obj []) =
      json_to_issues cfgC2 (JsonValue.obj []) :=
  ⟨C2_prefix_text_only.1 cfgC2W
      [["title", "description"], ["Fix bug", "NPE on login"]] 0 (some 1) []
      "TODO:" [IssueFromFile.mk "TODO: Fix bug" (some "NPE on login")]
      rfl rfl rfl,
   C2_prefix_text_only.2 cfgC2 (some "X") (JsonValue.obj [])⟩

/-! ### Claim C3 -/

/-- Text configuration with a name-resolved description column and
combine mode off. -/
def cfgC3 : FileParser :=
  { file_extension := "csv", separator := some ',', no_header := false,
    title_key := some "t", title_column_index := none,
    description_key := some "d", description_column_index := none,
    prepend_title := none, combine_remaining := false }

/-- Claim C3, counterexample: with a resolved description index and
combine mode off, a row too short to contain the description field does
not yield a record with description `None` — the strict csv reader
aborts the whole extraction with a record read error instead. -/
theorem C3_counterexample :
    csv_to_issues cfgC3 [["t", "d"], ["x"]] =
      ParseOutcome.error "Could not read record" ∧
    csv_to_issues cfgC3 [["t", "d"], ["x"]] ≠
      ParseOutcome.ok [IssueFromFile.mk "x" none] :=
  ⟨rfl, by decide⟩

/-- Claim C3, amended: with a resolved description index and combine
mode off, the tolerate-as-`None` branch is unreachable — every record
the extraction actually emits has a present (`Some`) description,
because a row lacking a field at the description index aborts the whole
extraction (as the counterexample shows) instead of producing `None`. -/
theorem C3_description_never_none (p : FileParser)
    (rows : List (List String)) (t d : Nat) (ah : List String)
    (issues : List IssueFromFile)
    (h1 : p.combine_remaining = false)
    (hres : csvResolve p rows = ParseOutcome.ok (t, some d, ah))
    (hok : csv_to_issues p rows = ParseOutcome.ok issues) :
    ∀ issue ∈ issues, issue.description.isSome = true := by
  intro issue hmem
  have hstream := csv_to_issues_eq_stream p rows t (some d) ah hres issues hok
  obtain ⟨row, hrow, hpr⟩ :=
    mapExcept_ok_mem _ (csvDataRows p rows) issues hstream issue hmem
  obtain ⟨_, raw, _, _, desc, hdesc, hdeq⟩ :=
    processRow_ok_shape p t (some d) ah _ row issue hpr
  rw [hdeq]
  exact rowDescription_ok_isSome p t (some d) ah row desc hdesc (Or.inl rfl)

/-- Witness for the amended claim C3: a full row yields a `Some`
description. -/
theorem C3_description_never_none_witness :
    (IssueFromFile.mk "x" (some "y")).description.isSome = true :=
  C3_description_never_none cfgC3 [["t", "d"], ["x", "y"]] 0 1 []
    [IssueFromFile.mk "x" (some "y")] rfl rfl rfl
    (IssueFromFile.mk "x" (some "y")) (by decide)

/-! ### Claim C4 -/

/-- JSON combine-mode configuration. -/
def cfgC4 : FileParser :=
  { file_extension := "json", separator := none, no_header := false,
    title_key := some "title", title_column_index := none,
    description_key := none, description_column_index := none,
    prepend_title := none, combine_remaining := true }

/-- Claim C4, counterexample: in combine mode on the JSON path, an
object whose only entry is the title yields a record with description
`None`, not the present-but-empty description the claim requires. -/
theorem C4_counterexample :
    json_to_issues cfgC4 (JsonValue.obj [("title", JsonValue.str "A")]) =
      ParseOutcome.ok [IssueFromFile.mk "A" none] ∧
    json_to_issues cfgC4 (JsonValue.obj [("title", JsonValue.str "A")]) ≠
      ParseOutcome.ok [IssueFromFile.mk "A" (some "")] :=
  ⟨rfl, by decide⟩

/-- Claim C4, amended: in combine mode every record emitted by the
delimited-text path has a present (`Some`) description — an empty
string when the row has only the title column — while on the JSON path
the description is `None` exactly when every entry of the object
matches the title key (no fragment was accumulated), and present
otherwise. -/
theorem C4_combine_description_presence :
    (∀ (p : FileParser) (rows : List (List String)) (t : Nat)
        (dci : Option Nat) (ah : List String) (issues : List IssueFromFile),
        p.combine_remaining = true →
        csvResolve p rows = ParseOutcome.ok (t, dci, ah) →
        csv_to_issues p rows = ParseOutcome.ok issues →
        ∀ issue ∈ issues, issue.description.isSome = true) ∧
    (∀ (p : FileParser) (tk : String) (fields : List (String × JsonValue))
        (issue : IssueFromFile),
        p.title_key = some tk → p.combine_remaining = true →
        serde_object_to_issue p fields = ParseOutcome.ok issue →
        (issue.description = none ↔
          ∀ kv ∈ fields, lowercase kv.1 = lowercase tk)) := by
  constructor
  · intro p rows t dci ah issues hc hres hok issue hmem
    have hstream := csv_to_issues_eq_stream p rows t dci ah hres issues hok
    obtain ⟨row, hrow, hpr⟩ :=
      mapExcept_ok_mem _ (csvDataRows p rows) issues hstream issue hmem
    obtain ⟨_, raw, _, _, desc, hdesc, hdeq⟩ :=
      processRow_ok_shape p t dci ah _ row issue hpr
    rw [hdeq]
    exact rowDescription_ok_isSome p t dci ah row desc hdesc (Or.inr hc)
  · intro p tk fields issue htk hc hok
    unfold serde_object_to_issue at hok
    rw [htk, hc] at hok
    have hok2 : (match objLoop true p.description_key (lowercase tk)
          fields "" [] with
        | Except.error e => ParseOutcome.error e
        | Except.ok (title, descs) =>
          ParseOutcome.ok (IssueFromFile.mk title
            (if descs.isEmpty then none
             else some (String.join descs)))) =
        ParseOutcome.ok issue := hok
    cases ho : objLoop true p.description_key (lowercase tk) fields "" [] with
    | error e => rw [ho] at hok2; simp at hok2
    | ok r =>
      obtain ⟨tOut, dOut⟩ := r
      rw [ho] at hok2
      have hok3 : ParseOutcome.ok (IssueFromFile.mk tOut
          (if dOut.isEmpty then none else some (String.join dOut))) =
          ParseOutcome.ok issue := hok2
      injection hok3 with h4
      rw [← h4]
      have hiff := objLoop_combine_descs p.description_key (lowercase tk)
        fields "" [] tOut dOut ho
      cases dOut with
      | nil => simpa using hiff
      | cons a as =>
        constructor
        · intro h5
          simp at h5
        · intro hall
          exact absurd (hiff.mpr ⟨rfl, hall⟩) (by simp)

/-- Text combine-mode configuration for the C4 witness: a single
title-only column. -/
def cfgC4W : FileParser :=
  { file_extension := "csv", separator := some ',', no_header := false,
    title_key := some "t", title_column_index := none,
    description_key := none, description_column_index := none,
    prepend_title := none, combine_remaining := true }

/-- Witness for the amended claim C4: the text path yields a present,
empty description for a title-only row, and the JSON iff holds for a
title-only object. -/
theorem C4_combine_description_presence_witness :
    (∀ issue ∈ ([IssueFromFile.mk "x" (some "")] : List IssueFromFile),
        issue.description.isSome = true) ∧
    ((IssueFromFile.mk "A" none).description = none ↔
      ∀ kv ∈ [("title", JsonValue.str "A")],
        lowercase kv.1 = lowercase "title") :=
  ⟨C4_combine_description_presence.1 cfgC4W [["t"], ["x"]] 0 none ["t"]
      [IssueFromFile.mk "x" (some "")] rfl rfl rfl,
   C4_combine_description_presence.2 cfgC4 "title"
      [("title", JsonValue.str "A")] (IssueFromFile.mk "A" none) rfl rfl rfl⟩

/-! ### Claim C10 -/

/-- JSON configuration selecting the title only by numeric index
(`title_key = None`). -/
def cfgC10 : FileParser :=
  { file_extension := "json", separator := none, no_header := false,
    title_key := none, title_column_index := some 0,
    description_key := none, description_column_index := none,
    prepend_title := none, combine_remaining := false }

/-- Claim C10, counterexample: a JSON source whose root is an empty
array is processed with `title_key = None` without any panic —
`get_issues` returns `Ok []`, because `serde_object_to_issue` (and its
unconditional unwrap of the title key) is never reached. -/
theorem C10_counterexample :
    get_issues cfgC10 [] (JsonValue.arr []) = ParseOutcome.ok [] ∧
    get_issues cfgC10 [] (JsonValue.arr []) ≠ ParseOutcome.panic :=
  ⟨rfl, by decide⟩

/-- Claim C10, amended: on the JSON path, whenever an object actually
reaches `serde_object_to_issue` (a root object, or a root array whose
first element is an object), a configuration with `title_key = None`
makes `get_issues` panic through the unconditional unwrap; conversely,
with a title key configured the panic is unreachable for every JSON
document. -/
theorem C10_title_key_panic :
    (∀ (p : FileParser) (rows : List (List String))
        (fields : List (String × JsonValue)) (rest : List JsonValue)
        (data : JsonValue),
        p.file_extension = "json" → p.title_key = none →
        (data = JsonValue.obj fields ∨
          data = JsonValue.arr (JsonValue.obj fields :: rest)) →
        get_issues p rows data = ParseOutcome.panic) ∧
    (∀ (p : FileParser) (tk : String) (rows : List (List String))
        (data : JsonValue),
        p.file_extension = "json" → p.title_key = some tk →
        get_issues p rows data ≠ ParseOutcome.panic) := by
  constructor
  · intro p rows fields rest data hext htk hdata
    have hserde : serde_object_to_issue p fields = ParseOutcome.panic := by
      unfold serde_object_to_issue
      rw [htk]
    unfold get_issues
    rw [hext]
    rcases hdata with h | h
    · subst h
      show (match serde_object_to_issue p fields with
            | ParseOutcome.panic => ParseOutcome.panic
            | ParseOutcome.error e => ParseOutcome.error e
            | ParseOutcome.ok i => ParseOutcome.ok [i]) = ParseOutcome.panic
      rw [hserde]
    · subst h
      show (match serde_object_to_issue p fields with
            | ParseOutcome.panic => ParseOutcome.panic
            | ParseOutcome.error e => ParseOutcome.error e
            | ParseOutcome.ok i => jsonArrLoop p rest ([] ++ [i])) =
          ParseOutcome.panic
      rw [hserde]
  · intro p tk rows data hext htk
    unfold get_issues
    rw [hext]
    show json_to_issues p data ≠ ParseOutcome.panic
    exact json_to_issues_no_panic p tk htk data

/-- JSON configuration with a title key, for the C10 witness. -/
def cfgC10B : FileParser :=
  { file_extension := "json", separator := none, no_header := false,
    title_key := some "title", title_column_index := none,
    description_key := none, description_column_index := none,
    prepend_title := none, combine_remaining := false }

/-- Witness for the amended claim C10: a concrete panic with
`title_key = None` on a root object, and a concrete non-panic once a
title key is configured. -/
theorem C10_title_key_panic_witness :
    get_issues cfgC10 [] (JsonValue.obj [("a", JsonValue.null)]) =
      ParseOutcome.panic ∧
    get_issues cfgC10B [] (JsonValue.obj []) ≠ ParseOutcome.panic :=
  ⟨C10_title_key_panic.1 cfgC10 [] [("a", JsonValue.null)] []
      (JsonValue.obj [("a", JsonValue.null)]) rfl rfl (Or.inl rfl),
   C10_title_key_panic.2 cfgC10B "title" [] (JsonValue.obj []) rfl rfl⟩
